import Mathlib

/-!
Shallow embedding of the request core of the HTTP-client MCP server
(src/http_client_mcp/server.py): parameter validation, request-body
construction with header defaulting, execution-error classification,
result-envelope assembly, status-phrase lookup, and the five
convenience wrappers.

Modelling choices:
* Python floats (timeouts, elapsed times) are embedded as rationals.
* Python dicts with string keys/values are association lists; the
  body may be a string or a structured mapping, whose values are
  modelled as strings since no decision logic of the core inspects
  them.
* The Python standard library serializers used by the executor
  (json.dumps, json.loads, urllib.parse.urlencode, str of a dict) are
  external library code, not part of this repository; they are
  abstracted as a Codec record so that every theorem holds for any
  implementation of them. json.loads appears only through the Boolean
  "does this string parse" test that the executor performs.
* The httpx network call is an oracle from the request actually sent
  to an outcome (a response, a timeout, a transport error, or an
  unexpected error); claims about "no network call" are stated as the
  result being independent of the oracle, together with the sent
  request being none.
* Exceptions raised by the Python code are embedded as constructors
  of error types; the message function renders the raised message.
* str.upper / str.lower are embedded on ASCII, the alphabet of HTTP
  method and body-type names.
-/

namespace HttpClientMcp

/-- Request body: Python Union[str, Dict[str, Any]]. Mapping values are
modelled as strings, since the core only serializes them through the
abstract codec and never inspects them. -/
inductive Body where
  | str (s : String)
  | dict (d : List (String × String))
  deriving DecidableEq, Repr

/-- Python str.upper on ASCII, as applied to HTTP method names. -/
def pyUpper (s : String) : String := ⟨s.data.map Char.toUpper⟩

/-- Python str.lower on ASCII, as applied to body-type names. -/
def pyLower (s : String) : String := ⟨s.data.map Char.toLower⟩

/-- Validation failures raised while constructing HttpRequestParams
(pydantic field validators and the timeout range constraint). -/
inductive ValidationError where
  | invalidUrl
  | invalidMethod (value : String)
  | invalidBodyType (value : String)
  | invalidTimeout (value : Rat)
  deriving DecidableEq, Repr

/-- The message text of a validation failure, as surfaced to the
failure envelope. -/
def ValidationError.message : ValidationError → String
  | .invalidUrl => "URL must start with http:// or https://"
  | .invalidMethod v => "Invalid HTTP method: " ++ v
  | .invalidBodyType v => "Invalid body type: " ++ v
  | .invalidTimeout _ => "timeout must be between 0.1 and 300"

/-- The fixed set of accepted HTTP methods (server.py line 64). -/
def valid_methods : List String :=
  ["GET", "POST", "PUT", "DELETE", "PATCH", "HEAD", "OPTIONS"]

/-- The fixed set of accepted body types (server.py line 74). -/
def valid_body_types : List String := ["json", "form", "text", "raw"]

/-- Python str.startswith on a single candidate, on the character
sequence. -/
def startswith (v p : String) : Bool := p.data.isPrefixOf v.data

/-- validate_url (server.py lines 79-85). -/
def validate_url (v : String) : Except ValidationError String :=
  if startswith v "http://" || startswith v "https://" then .ok v
  else .error .invalidUrl

/-- validate_method (server.py lines 60-68): upper-case, check
membership in valid_methods, return the upper-cased value. -/
def validate_method (v : String) : Except ValidationError String :=
  if pyUpper v ∈ valid_methods then .ok (pyUpper v)
  else .error (.invalidMethod v)

/-- validate_body_type (server.py lines 70-77): lower-case, check
membership in valid_body_types, return the lower-cased value. -/
def validate_body_type (v : String) : Except ValidationError String :=
  if pyLower v ∈ valid_body_types then .ok (pyLower v)
  else .error (.invalidBodyType v)

/-- The pydantic range constraint on timeout (server.py lines 54-56):
ge 0.1, le 300.0. -/
def validate_timeout (t : Rat) : Except ValidationError Rat :=
  if 1/10 ≤ t ∧ t ≤ 300 then .ok t else .error (.invalidTimeout t)

/-- Validated HTTP request parameters (the HttpRequestParams pydantic
model, server.py lines 34-85). -/
structure HttpRequestParams where
  url : String
  method : String
  headers : Option (List (String × String))
  params : Option (List (String × String))
  body : Option Body
  body_type : String
  timeout : Rat
  follow_redirects : Bool
  verify_ssl : Bool
  deriving DecidableEq, Repr

/-- Construction of HttpRequestParams: each field validator applied,
failing with the first validation error. -/
def mk_params (url method : String)
    (headers params : Option (List (String × String)))
    (body : Option Body) (body_type : String) (timeout : Rat)
    (follow_redirects verify_ssl : Bool) :
    Except ValidationError HttpRequestParams :=
  match validate_url url with
  | .error e => .error e
  | .ok u =>
    match validate_method method with
    | .error e => .error e
    | .ok m =>
      match validate_body_type body_type with
      | .error e => .error e
      | .ok bt =>
        match validate_timeout timeout with
        | .error e => .error e
        | .ok t =>
          .ok ⟨u, m, headers, params, body, bt, t,
               follow_redirects, verify_ssl⟩

/-- Abstraction of the Python standard-library serializers used by the
executor: json.dumps on a mapping, the success of json.loads on a
string, urllib.parse.urlencode on a mapping, and str of a mapping. -/
structure Codec where
  dumps : List (String × String) → String
  parses : String → Bool
  urlenc : List (String × String) → String
  strOfDict : List (String × String) → String

/-- Python str applied to a body value. -/
def pyStr (c : Codec) : Body → String
  | .str s => s
  | .dict d => c.strOfDict d

/-- Execution failures raised by make_http_request
(server.py lines 115 and 159-165). -/
inductive ExecError where
  | invalidJsonBody
  | requestTimeout (timeout : Rat)
  | requestFailed (msg : String)
  | unexpectedError (msg : String)
  deriving DecidableEq, Repr

/-- The message text of an execution failure, as raised by
make_http_request and surfaced to the failure envelope. -/
def ExecError.message : ExecError → String
  | .invalidJsonBody => "Invalid JSON body provided"
  | .requestTimeout t => "Request timed out after " ++ toString t ++ " seconds"
  | .requestFailed m => "Request failed: " ++ m
  | .unexpectedError m => "Unexpected error: " ++ m

/-- Python dict membership on an association list (exact-case key). -/
def hasKey (h : List (String × String)) (k : String) : Bool :=
  h.any (fun p => p.1 == k)

/-- Python dict.setdefault: add the pair only when the exact key is
absent. -/
def setdefault (h : List (String × String)) (k v : String) :
    List (String × String) :=
  if hasKey h k then h else h ++ [(k, v)]

/-- Case-insensitive header lookup (httpx response.headers.get). -/
def header_get (h : List (String × String)) (k : String) : Option String :=
  (h.find? (fun p => pyLower p.1 == pyLower k)).map (fun p => p.2)

/-- The body-construction step of make_http_request (server.py lines
103-132): dispatch on body_type, serialize the body, and default the
Content-Type header when the exact-case key is absent. Returns the
request body (none when no body was supplied) and the headers to
send; fails with invalidJsonBody when a string body under body_type
json does not parse. -/
def build_request_body (c : Codec) (headers : List (String × String))
    (body : Option Body) (body_type : String) :
    Except ExecError (Option String × List (String × String)) :=
  match body with
  | none => .ok (none, headers)
  | some b =>
    if body_type = "json" then
      match b with
      | .dict d =>
        .ok (some (c.dumps d),
             setdefault headers "Content-Type" "application/json")
      | .str s =>
        if c.parses s then
          .ok (some s, setdefault headers "Content-Type" "application/json")
        else
          .error .invalidJsonBody
    else if body_type = "form" then
      match b with
      | .dict d =>
        .ok (some (c.urlenc d),
             setdefault headers "Content-Type"
               "application/x-www-form-urlencoded")
      | .str s =>
        .ok (some s,
             setdefault headers "Content-Type"
               "application/x-www-form-urlencoded")
    else if body_type = "text" then
      .ok (some (pyStr c b), setdefault headers "Content-Type" "text/plain")
    else
      .ok (some (pyStr c b), headers)

/-- Structured HTTP response (the HttpResponse pydantic model,
server.py lines 24-31). -/
structure HttpResponse where
  status_code : Int
  headers : List (String × String)
  content : String
  content_type : Option String
  elapsed_ms : Rat
  deriving DecidableEq, Repr

/-- The arguments of the single httpx client.request call
(server.py lines 140-146). -/
structure SentRequest where
  method : String
  url : String
  headers : List (String × String)
  params : Option (List (String × String))
  content : Option String
  deriving DecidableEq, Repr

/-- Outcome of the network call, as produced by httpx: a raw response
(status, headers, decoded text, elapsed seconds), a TimeoutException,
a RequestError, or any other exception. -/
inductive NetOutcome where
  | success (status_code : Int) (headers : List (String × String))
      (content : String) (elapsed_s : Rat)
  | timeoutExc
  | requestError (msg : String)
  | otherError (msg : String)
  deriving DecidableEq, Repr

/-- make_http_request (server.py lines 88-165): take headers or empty,
build the request body, send, and either package the response or
classify the failure. The network is the oracle net. -/
def make_http_request (c : Codec) (net : SentRequest → NetOutcome)
    (p : HttpRequestParams) : Except ExecError HttpResponse :=
  match build_request_body c (p.headers.getD []) p.body p.body_type with
  | .error e => .error e
  | .ok (request_body, hs) =>
    match net ⟨p.method, p.url, hs, p.params, request_body⟩ with
    | .success st rh ct el =>
      .ok ⟨st, rh, ct, header_get rh "content-type", 1000 * el⟩
    | .timeoutExc => .error (.requestTimeout p.timeout)
    | .requestError m => .error (.requestFailed m)
    | .otherError m => .error (.unexpectedError m)

/-- The request handed to the httpx client by make_http_request, or
none when body construction fails before the client is invoked. -/
def sent_request (c : Codec) (p : HttpRequestParams) :
    Option SentRequest :=
  match build_request_body c (p.headers.getD []) p.body p.body_type with
  | .error _ => none
  | .ok (request_body, hs) =>
    some ⟨p.method, p.url, hs, p.params, request_body⟩

/-- Python truthiness of the optional body argument, as used by the
body_type echo (server.py line 226): None, the empty string and the
empty mapping are falsy. -/
def truthy : Option Body → Bool
  | none => false
  | some (.str s) => !(s == "")
  | some (.dict d) => !d.isEmpty

/-- The request echo block of the success envelope
(server.py lines 221-228). -/
structure RequestEcho where
  method : String
  url : String
  headers : List (String × String)
  params : List (String × String)
  body_type : Option String
  timeout : Rat
  deriving DecidableEq, Repr

/-- The response block of the success envelope
(server.py lines 229-236). -/
structure ResponseBlock where
  status_code : Int
  status_text : String
  headers : List (String × String)
  content_type : Option String
  content : String
  elapsed_ms : Rat
  deriving DecidableEq, Repr

/-- The request echo block of the failure envelope
(server.py lines 246-251). -/
structure FailureEcho where
  method : String
  url : String
  headers : List (String × String)
  params : List (String × String)
  deriving DecidableEq, Repr

/-- The result envelope: either the success shape (request echo,
response block, success flag) or the failure shape (error true, a
message, a request echo and no response fields). Both shapes are
serialized as JSON text; the failure constructor carries the
error-true marker structurally. -/
inductive Envelope where
  | success (request : RequestEcho) (response : ResponseBlock) (succ : Bool)
  | failure (message : String) (request : FailureEcho)
  deriving DecidableEq, Repr

/-- The fixed status-code table of _get_status_text
(server.py lines 393-417). -/
def status_texts : List (Int × String) :=
  [(100, "Continue"), (101, "Switching Protocols"),
   (200, "OK"), (201, "Created"), (202, "Accepted"), (204, "No Content"),
   (301, "Moved Permanently"), (302, "Found"), (304, "Not Modified"),
   (307, "Temporary Redirect"), (308, "Permanent Redirect"),
   (400, "Bad Request"), (401, "Unauthorized"), (403, "Forbidden"),
   (404, "Not Found"), (405, "Method Not Allowed"), (409, "Conflict"),
   (422, "Unprocessable Entity"), (429, "Too Many Requests"),
   (500, "Internal Server Error"), (502, "Bad Gateway"),
   (503, "Service Unavailable"), (504, "Gateway Timeout")]

/-- _get_status_text (server.py lines 391-430): table lookup, then the
class-derived fallback phrases. -/
def get_status_text (status_code : Int) : String :=
  match List.lookup status_code status_texts with
  | some t => toString status_code ++ " " ++ t
  | none =>
    if 200 ≤ status_code ∧ status_code < 300 then
      toString status_code ++ " Success"
    else if 300 ≤ status_code ∧ status_code < 400 then
      toString status_code ++ " Redirection"
    else if 400 ≤ status_code ∧ status_code < 500 then
      toString status_code ++ " Client Error"
    else if 500 ≤ status_code ∧ status_code < 600 then
      toString status_code ++ " Server Error"
    else
      toString status_code ++ " Unknown"

/-- Python round(x, 2) on the hundredfold value: nearest integer with
half-to-even ties. -/
def round_half_even (q : Rat) : Int :=
  let f := ⌊q⌋
  if q - f < 1/2 then f
  else if q - f > 1/2 then f + 1
  else if f % 2 = 0 then f else f + 1

/-- Python round(x, 2): two decimal places. -/
def round2 (q : Rat) : Rat := (round_half_even (100 * q) : Rat) / 100

/-- http_request (server.py lines 169-253): validate, execute, and
assemble the success envelope, catching every failure into the
failure envelope that echoes the upper-cased raw method, the url, and
the headers and params arguments (empty mapping when absent). -/
def http_request (c : Codec) (net : SentRequest → NetOutcome)
    (url method : String)
    (headers params : Option (List (String × String)))
    (body : Option Body) (body_type : String) (timeout : Rat)
    (follow_redirects verify_ssl : Bool) : Envelope :=
  match mk_params url method headers params body body_type timeout
      follow_redirects verify_ssl with
  | .error e =>
    .failure (ValidationError.message e)
      ⟨pyUpper method, url, headers.getD [], params.getD []⟩
  | .ok request_params =>
    match make_http_request c net request_params with
    | .error e =>
      .failure (ExecError.message e)
        ⟨pyUpper method, url, headers.getD [], params.getD []⟩
    | .ok resp =>
      .success
        ⟨request_params.method, url, headers.getD [], params.getD [],
         if truthy body then some body_type else none, timeout⟩
        ⟨resp.status_code, get_status_text resp.status_code, resp.headers,
         resp.content_type, resp.content, round2 resp.elapsed_ms⟩
        (decide (200 ≤ resp.status_code ∧ resp.status_code < 300))

/-- http_get (server.py lines 257-277): delegation to http_request with
method GET and the remaining parameters at their defaults. -/
def http_get (c : Codec) (net : SentRequest → NetOutcome) (url : String)
    (headers params : Option (List (String × String))) (timeout : Rat) :
    Envelope :=
  http_request c net url "GET" headers params none "json" timeout true true

/-- http_post (server.py lines 281-308). -/
def http_post (c : Codec) (net : SentRequest → NetOutcome) (url : String)
    (body : Option Body) (headers : Option (List (String × String)))
    (body_type : String) (timeout : Rat) : Envelope :=
  http_request c net url "POST" headers none body body_type timeout true true

/-- http_put (server.py lines 312-339). -/
def http_put (c : Codec) (net : SentRequest → NetOutcome) (url : String)
    (body : Option Body) (headers : Option (List (String × String)))
    (body_type : String) (timeout : Rat) : Envelope :=
  http_request c net url "PUT" headers none body body_type timeout true true

/-- http_delete (server.py lines 343-357). -/
def http_delete (c : Codec) (net : SentRequest → NetOutcome) (url : String)
    (headers : Option (List (String × String))) (timeout : Rat) : Envelope :=
  http_request c net url "DELETE" headers none none "json" timeout true true

/-- http_patch (server.py lines 361-388). -/
def http_patch (c : Codec) (net : SentRequest → NetOutcome) (url : String)
    (body : Option Body) (headers : Option (List (String × String)))
    (body_type : String) (timeout : Rat) : Envelope :=
  http_request c net url "PATCH" headers none body body_type timeout true true

/-- A concrete codec instance used by witnesses: dumps and urlenc
return tagged markers, and only the two-character object text parses
as JSON. -/
def codec0 : Codec :=
  ⟨fun _ => "JSONDUMP", fun s => s == "JSONDUMP", fun _ => "URLENC",
   fun _ => "STRDICT"⟩

/-- A network oracle used by witnesses: every request receives an
empty 200 response instantly. -/
def net200 : SentRequest → NetOutcome :=
  fun _ => .success 200 [] "" 0

/-- A network oracle used by witnesses: every request receives an
empty 201 response instantly. -/
def net201 : SentRequest → NetOutcome :=
  fun _ => .success 201 [] "" 0

/-! ## Helper lemmas -/

theorem validate_method_ok_val {s m : String}
    (h : validate_method s = .ok m) : m = pyUpper s := by
  unfold validate_method at h
  split at h
  · injection h with h
    exact h.symm
  · cases h

/-- mk_params succeeds only with the upper-cased method in the
descriptor. -/
theorem mk_params_method {url s : String}
    {hd pr : Option (List (String × String))} {b : Option Body}
    {bt : String} {t : Rat} {fr vs : Bool} {rp : HttpRequestParams}
    (hmk : mk_params url s hd pr b bt t fr vs = .ok rp) :
    rp.method = pyUpper s := by
  unfold mk_params at hmk
  cases hu : validate_url url with
  | error e => rw [hu] at hmk; cases hmk
  | ok u =>
    rw [hu] at hmk
    cases hm : validate_method s with
    | error e => rw [hm] at hmk; cases hmk
    | ok m =>
      rw [hm] at hmk
      cases hbt : validate_body_type bt with
      | error e => rw [hbt] at hmk; cases hmk
      | ok bt2 =>
        rw [hbt] at hmk
        cases ht : validate_timeout t with
        | error e => rw [ht] at hmk; cases hmk
        | ok t2 =>
          rw [ht] at hmk
          simp only [Except.ok.injEq] at hmk
          subst hmk
          exact validate_method_ok_val hm

theorem setdefault_of_hasKey {h : List (String × String)} {k v : String}
    (hk : hasKey h k = true) : setdefault h k v = h := by
  unfold setdefault
  simp [hk]

theorem setdefault_of_not_hasKey {h : List (String × String)} {k v : String}
    (hk : hasKey h k = false) : setdefault h k v = h ++ [(k, v)] := by
  unfold setdefault
  simp [hk]

/-- The headers produced by body construction are either untouched or
the result of one Content-Type setdefault. -/
theorem build_request_body_headers (c : Codec)
    (h : List (String × String)) (body : Option Body) (body_type : String)
    (rb : Option String) (hs : List (String × String))
    (hok : build_request_body c h body body_type = .ok (rb, hs)) :
    hs = h ∨ ∃ v, hs = setdefault h "Content-Type" v := by
  rcases body with _ | (s | d) <;>
    simp only [build_request_body] at hok <;>
    (try split_ifs at hok) <;>
    (try cases hok) <;>
    first
      | exact Or.inr ⟨_, rfl⟩
      | exact Or.inl rfl

/-- Body construction for a string body under body_type json. -/
theorem build_json_str (c : Codec) (h : List (String × String)) (s : String) :
    build_request_body c h (some (.str s)) "json"
      = if c.parses s then
          .ok (some s, setdefault h "Content-Type" "application/json")
        else .error .invalidJsonBody := by
  simp only [build_request_body, if_true]

theorem validate_timeout_30 : validate_timeout 30 = .ok 30 := by
  unfold validate_timeout
  rw [if_pos (by norm_num)]

theorem round2_zero : round2 0 = 0 := by
  simp [round2, round_half_even]

/-- mk_params evaluated from the four field validators. -/
theorem mk_params_eval (url method : String)
    (headers params : Option (List (String × String))) (body : Option Body)
    (body_type : String) (timeout : Rat) (fr vs : Bool)
    (hu : validate_url url = .ok url)
    (hm : validate_method method = .ok (pyUpper method))
    (hbt : validate_body_type body_type = .ok (pyLower body_type))
    (ht : validate_timeout timeout = .ok timeout) :
    mk_params url method headers params body body_type timeout fr vs
      = .ok ⟨url, pyUpper method, headers, params, body, pyLower body_type,
             timeout, fr, vs⟩ := by
  unfold mk_params
  rw [hu, hm, hbt, ht]

/-- make_http_request evaluated from a successful body construction. -/
theorem make_http_request_of_build (c : Codec)
    (net : SentRequest → NetOutcome) (p : HttpRequestParams)
    (rb : Option String) (hs : List (String × String))
    (hb : build_request_body c (p.headers.getD []) p.body p.body_type
      = .ok (rb, hs)) :
    make_http_request c net p
      = match net ⟨p.method, p.url, hs, p.params, rb⟩ with
        | .success st rh ct el =>
          .ok ⟨st, rh, ct, header_get rh "content-type", 1000 * el⟩
        | .timeoutExc => .error (.requestTimeout p.timeout)
        | .requestError m => .error (.requestFailed m)
        | .otherError m => .error (.unexpectedError m) := by
  unfold make_http_request
  rw [hb]

/-- http_request evaluated from successful validation and execution. -/
theorem http_request_of_ok (c : Codec) (net : SentRequest → NetOutcome)
    (url method : String)
    (headers params : Option (List (String × String)))
    (body : Option Body) (body_type : String) (timeout : Rat)
    (fr vs : Bool) (rp : HttpRequestParams) (resp : HttpResponse)
    (hmk : mk_params url method headers params body body_type timeout fr vs
      = .ok rp)
    (hex : make_http_request c net rp = .ok resp) :
    http_request c net url method headers params body body_type timeout fr vs
      = .success
          ⟨rp.method, url, headers.getD [], params.getD [],
           (if truthy body then some body_type else none), timeout⟩
          ⟨resp.status_code, get_status_text resp.status_code, resp.headers,
           resp.content_type, resp.content, round2 resp.elapsed_ms⟩
          (decide (200 ≤ resp.status_code ∧ resp.status_code < 300)) := by
  unfold http_request
  rw [hmk]
  simp only [hex]

/-- http_request evaluated from a validation failure. -/
theorem http_request_of_validation_error (c : Codec)
    (net : SentRequest → NetOutcome) (url method : String)
    (headers params : Option (List (String × String)))
    (body : Option Body) (body_type : String) (timeout : Rat)
    (fr vs : Bool) (e : ValidationError)
    (hmk : mk_params url method headers params body body_type timeout fr vs
      = .error e) :
    http_request c net url method headers params body body_type timeout
        fr vs
      = .failure e.message
          ⟨pyUpper method, url, headers.getD [], params.getD []⟩ := by
  unfold http_request
  rw [hmk]

/-- http_request evaluated from an execution failure. -/
theorem http_request_of_exec_error (c : Codec)
    (net : SentRequest → NetOutcome) (url method : String)
    (headers params : Option (List (String × String)))
    (body : Option Body) (body_type : String) (timeout : Rat)
    (fr vs : Bool) (rp : HttpRequestParams) (e : ExecError)
    (hmk : mk_params url method headers params body body_type timeout fr vs
      = .ok rp)
    (hex : make_http_request c net rp = .error e) :
    http_request c net url method headers params body body_type timeout
        fr vs
      = .failure e.message
          ⟨pyUpper method, url, headers.getD [], params.getD []⟩ := by
  unfold http_request
  rw [hmk]
  simp only [hex]

/-- Concrete run used by witnesses: a GET at a 201-answering oracle. -/
theorem http_request_201_eval :
    http_request codec0 net201 "http://x" "GET" none none none "json" 30
        true true
      = .success ⟨"GET", "http://x", [], [], none, 30⟩
          ⟨201, "201 Created", [], none, "", 0⟩ true := by
  have hmk : mk_params "http://x" "GET" none none none "json" 30 true true
      = .ok ⟨"http://x", "GET", none, none, none, "json", 30, true, true⟩ := by
    rw [mk_params_eval "http://x" "GET" none none none "json" 30 true true
        rfl rfl rfl validate_timeout_30]
    rfl
  have hex : make_http_request codec0 net201
      ⟨"http://x", "GET", none, none, none, "json", 30, true, true⟩
      = .ok ⟨201, [], "", none, 0⟩ := by
    rw [make_http_request_of_build codec0 net201
        ⟨"http://x", "GET", none, none, none, "json", 30, true, true⟩
        none [] rfl]
    norm_num [net201, header_get]
  rw [http_request_of_ok codec0 net201 "http://x" "GET" none none none
      "json" 30 true true
      ⟨"http://x", "GET", none, none, none, "json", 30, true, true⟩
      ⟨201, [], "", none, 0⟩ hmk hex]
  simp only [round2_zero]
  rfl

/-- Concrete run used by witnesses: a POST of an empty mapping body. -/
theorem http_request_emptydict_eval :
    http_request codec0 net200 "http://x" "POST" none none
        (some (.dict [])) "json" 30 true true
      = .success ⟨"POST", "http://x", [], [], none, 30⟩
          ⟨200, "200 OK", [], none, "", 0⟩ true := by
  have hmk : mk_params "http://x" "POST" none none (some (.dict [])) "json"
        30 true true
      = .ok ⟨"http://x", "POST", none, none, some (.dict []), "json", 30,
             true, true⟩ := by
    rw [mk_params_eval "http://x" "POST" none none (some (.dict [])) "json"
        30 true true rfl rfl rfl validate_timeout_30]
    rfl
  have hex : make_http_request codec0 net200
      ⟨"http://x", "POST", none, none, some (.dict []), "json", 30, true,
       true⟩
      = .ok ⟨200, [], "", none, 0⟩ := by
    rw [make_http_request_of_build codec0 net200
        ⟨"http://x", "POST", none, none, some (.dict []), "json", 30, true,
         true⟩
        (some "JSONDUMP") [("Content-Type", "application/json")] rfl]
    norm_num [net200, header_get]
  rw [http_request_of_ok codec0 net200 "http://x" "POST" none none
      (some (.dict [])) "json" 30 true true
      ⟨"http://x", "POST", none, none, some (.dict []), "json", 30, true,
       true⟩
      ⟨200, [], "", none, 0⟩ hmk hex]
  simp only [round2_zero]
  rfl

/-! ## Claim theorems -/

/-- C3: the validator accepts a string s as a method exactly when
upper-casing s lands in the fixed method set, the accepted value (and
the descriptor method field) is the upper-cased string, and every
other string is rejected with InvalidMethod naming the offending
value. -/
theorem method_validator_spec (s : String) :
    (validate_method s = .ok (pyUpper s) ↔ pyUpper s ∈ valid_methods)
    ∧ (pyUpper s ∉ valid_methods →
        validate_method s = .error (.invalidMethod s))
    ∧ (∀ r, validate_method s = .ok r → r = pyUpper s)
    ∧ (∀ url hd pr b bt t fr vs rp,
        mk_params url s hd pr b bt t fr vs = .ok rp →
        rp.method = pyUpper s) := by
  refine ⟨?_, ?_, ?_, ?_⟩
  · unfold validate_method
    by_cases hm : pyUpper s ∈ valid_methods <;> simp [hm]
  · intro hm
    unfold validate_method
    simp [hm]
  · intro r h
    exact validate_method_ok_val h
  · intro url hd pr b bt t fr vs rp hmk
    exact mk_params_method hmk

theorem method_validator_spec_witness :
    validate_method "get" = .ok "GET"
    ∧ validate_method "brew" = .error (.invalidMethod "brew") :=
  ⟨by
    have h := (method_validator_spec "get").1.mpr (by decide)
    simpa using h,
   (method_validator_spec "brew").2.1 (by decide)⟩

/-- C4: timeout validation succeeds, returning the value unchanged,
exactly when 0.1 ≤ t ≤ 300; outside the closed interval it fails with
InvalidTimeout. -/
theorem timeout_validator_spec (t : Rat) :
    (validate_timeout t = .ok t ↔ (1/10 ≤ t ∧ t ≤ 300))
    ∧ (¬(1/10 ≤ t ∧ t ≤ 300) →
        validate_timeout t = .error (.invalidTimeout t)) := by
  unfold validate_timeout
  by_cases h : (1/10 : Rat) ≤ t ∧ t ≤ 300 <;> simp [h]

theorem timeout_validator_spec_witness :
    validate_timeout (1/10) = .ok (1/10)
    ∧ validate_timeout 300 = .ok 300
    ∧ validate_timeout (1/20) = .error (.invalidTimeout (1/20))
    ∧ validate_timeout 301 = .error (.invalidTimeout 301) :=
  ⟨(timeout_validator_spec (1/10)).1.mpr (by norm_num),
   (timeout_validator_spec 300).1.mpr (by norm_num),
   (timeout_validator_spec (1/20)).2 (by norm_num),
   (timeout_validator_spec 301).2 (by norm_num)⟩

/-- C6: every code of the fixed table maps to the code followed by its
canonical phrase; every code missing from the table maps to the
class-derived phrase (2xx Success, 3xx Redirection, 4xx Client Error,
5xx Server Error) and codes outside 100-599 map to Unknown; in
particular 404, 201, 499 and 650. -/
theorem status_text_spec :
    (∀ code phrase, (code, phrase) ∈ status_texts →
        get_status_text code = toString code ++ " " ++ phrase)
    ∧ (∀ code : Int, List.lookup code status_texts = none →
        ((200 ≤ code ∧ code < 300) →
            get_status_text code = toString code ++ " Success")
        ∧ ((300 ≤ code ∧ code < 400) →
            get_status_text code = toString code ++ " Redirection")
        ∧ ((400 ≤ code ∧ code < 500) →
            get_status_text code = toString code ++ " Client Error")
        ∧ ((500 ≤ code ∧ code < 600) →
            get_status_text code = toString code ++ " Server Error")
        ∧ ((code < 100 ∨ 600 ≤ code) →
            get_status_text code = toString code ++ " Unknown"))
    ∧ get_status_text 404 = "404 Not Found"
    ∧ get_status_text 201 = "201 Created"
    ∧ get_status_text 499 = "499 Client Error"
    ∧ get_status_text 650 = "650 Unknown" := by
  refine ⟨?_, ?_, rfl, rfl, rfl, rfl⟩
  · intro code phrase h
    unfold status_texts at h
    fin_cases h <;> rfl
  · intro code hnone
    unfold get_status_text
    rw [hnone]
    refine ⟨?_, ?_, ?_, ?_, ?_⟩ <;> intro hr <;>
      split_ifs <;> first | rfl | (exfalso; omega)

theorem status_text_spec_witness :
    get_status_text 201 = "201 Created"
    ∧ get_status_text 250 = "250 Success"
    ∧ get_status_text 499 = "499 Client Error"
    ∧ get_status_text 650 = "650 Unknown" :=
  ⟨status_text_spec.1 201 "Created" (by decide),
   (status_text_spec.2.1 250 rfl).1 (by norm_num),
   (status_text_spec.2.1 499 rfl).2.2.1 (by norm_num),
   (status_text_spec.2.1 650 rfl).2.2.2.2 (Or.inr (by norm_num))⟩

/-- C5: a caller-supplied exact-case Content-Type header survives body
construction untouched for every body type; a body-type default is
added only when the exact key is absent; and body_type raw never
touches the headers. -/
theorem content_type_precedence_spec (c : Codec)
    (h : List (String × String)) (body : Option Body) (body_type : String) :
    (hasKey h "Content-Type" = true →
      ∀ rb hs, build_request_body c h body body_type = .ok (rb, hs) →
        hs = h)
    ∧ (∀ rb hs, build_request_body c h body "raw" = .ok (rb, hs) →
        hs = h)
    ∧ (∀ rb hs, build_request_body c h body body_type = .ok (rb, hs) →
        hs = h ∨ (hasKey h "Content-Type" = false
          ∧ ∃ v, hs = h ++ [("Content-Type", v)])) := by
  refine ⟨?_, ?_, ?_⟩
  · intro hk rb hs hok
    rcases build_request_body_headers c h body body_type rb hs hok with
      he | ⟨v, he⟩
    · exact he
    · rw [he]
      exact setdefault_of_hasKey hk
  · intro rb hs hok
    rcases body with _ | (s | d)
    · simp only [build_request_body, Except.ok.injEq, Prod.mk.injEq] at hok
      exact hok.2.symm
    · simp only [build_request_body] at hok
      rw [if_neg (by decide : ¬("raw" = "json")),
          if_neg (by decide : ¬("raw" = "form")),
          if_neg (by decide : ¬("raw" = "text"))] at hok
      simp only [Except.ok.injEq, Prod.mk.injEq] at hok
      exact hok.2.symm
    · simp only [build_request_body] at hok
      rw [if_neg (by decide : ¬("raw" = "json")),
          if_neg (by decide : ¬("raw" = "form")),
          if_neg (by decide : ¬("raw" = "text"))] at hok
      simp only [Except.ok.injEq, Prod.mk.injEq] at hok
      exact hok.2.symm
  · intro rb hs hok
    rcases build_request_body_headers c h body body_type rb hs hok with
      he | ⟨v, he⟩
    · exact Or.inl he
    · by_cases hk : hasKey h "Content-Type" = true
      · rw [he, setdefault_of_hasKey hk]
        exact Or.inl rfl
      · have hk2 : hasKey h "Content-Type" = false := by
          simpa using hk
        exact Or.inr ⟨hk2, v, by rw [he, setdefault_of_not_hasKey hk2]⟩

theorem content_type_precedence_spec_witness :
    hasKey [("Content-Type", "text/html")] "Content-Type" = true
    ∧ build_request_body codec0 [("Content-Type", "text/html")]
        (some (.dict [])) "json"
        = .ok (some "JSONDUMP", [("Content-Type", "text/html")])
    ∧ [("Content-Type", "text/html")]
        = ([("Content-Type", "text/html")] : List (String × String)) :=
  ⟨rfl, rfl,
   (content_type_precedence_spec codec0 [("Content-Type", "text/html")]
       (some (.dict [])) "json").1 rfl (some "JSONDUMP")
       [("Content-Type", "text/html")] rfl⟩

/-- C2: under body_type json, a string body that does not parse as
JSON fails with InvalidJsonBody whatever the network oracle answers,
and no request is handed to the client; a string body that parses is
sent as the request content and InvalidJsonBody never occurs. -/
theorem invalid_json_body_spec (c : Codec) (p : HttpRequestParams)
    (s : String) (hb : p.body = some (.str s))
    (hbt : p.body_type = "json") :
    (c.parses s = false →
      (∀ net, make_http_request c net p = .error .invalidJsonBody)
      ∧ sent_request c p = none)
    ∧ (c.parses s = true →
      (∃ sr, sent_request c p = some sr ∧ sr.content = some s)
      ∧ ∀ net, make_http_request c net p ≠ .error .invalidJsonBody) := by
  have hkey : build_request_body c (p.headers.getD []) p.body p.body_type
      = if c.parses s then
          .ok (some s,
               setdefault (p.headers.getD []) "Content-Type"
                 "application/json")
        else .error .invalidJsonBody := by
    rw [hb, hbt, build_json_str]
  constructor
  · intro hp
    rw [hp] at hkey
    simp only [if_false, Bool.false_eq_true] at hkey
    constructor
    · intro net
      simp only [make_http_request, hkey]
    · simp only [sent_request, hkey]
  · intro hp
    rw [hp] at hkey
    simp only [if_true] at hkey
    constructor
    · refine ⟨⟨p.method, p.url,
        setdefault (p.headers.getD []) "Content-Type" "application/json",
        p.params, some s⟩, ?_, rfl⟩
      simp only [sent_request, hkey]
    · intro net
      simp only [make_http_request, hkey]
      cases net ⟨p.method, p.url,
          setdefault (p.headers.getD []) "Content-Type" "application/json",
          p.params, some s⟩ <;> simp

theorem invalid_json_body_spec_witness :
    codec0.parses "not json" = false
    ∧ make_http_request codec0 net200
        ⟨"http://x", "POST", none, none, some (.str "not json"), "json",
         30, true, true⟩
        = .error .invalidJsonBody
    ∧ sent_request codec0
        ⟨"http://x", "POST", none, none, some (.str "not json"), "json",
         30, true, true⟩
        = none :=
  ⟨rfl,
   ((invalid_json_body_spec codec0
       ⟨"http://x", "POST", none, none, some (.str "not json"), "json",
        30, true, true⟩
       "not json" rfl rfl).1 rfl).1 net200,
   ((invalid_json_body_spec codec0
       ⟨"http://x", "POST", none, none, some (.str "not json"), "json",
        30, true, true⟩
       "not json" rfl rfl).1 rfl).2⟩

/-- C9: each convenience wrapper is exactly http_request with the
method fixed to its verb, the wrapper arguments passed through, and
the remaining parameters at the http_request defaults. -/
theorem wrappers_delegate_spec (c : Codec) (net : SentRequest → NetOutcome)
    (url : String) (headers params : Option (List (String × String)))
    (body : Option Body) (body_type : String) (timeout : Rat) :
    http_get c net url headers params timeout
      = http_request c net url "GET" headers params none "json" timeout
          true true
    ∧ http_post c net url body headers body_type timeout
      = http_request c net url "POST" headers none body body_type timeout
          true true
    ∧ http_put c net url body headers body_type timeout
      = http_request c net url "PUT" headers none body body_type timeout
          true true
    ∧ http_delete c net url headers timeout
      = http_request c net url "DELETE" headers none none "json" timeout
          true true
    ∧ http_patch c net url body headers body_type timeout
      = http_request c net url "PATCH" headers none body body_type timeout
          true true :=
  ⟨rfl, rfl, rfl, rfl, rfl⟩

/-- C1: every call produces an envelope of exactly one of the two
shapes: the success shape, or the failure shape whose message block
carries error true and a message and whose request echo is the
upper-cased raw method, the url, and the headers and params arguments
with an empty mapping when absent, with no response fields. -/
theorem envelope_shape_spec (c : Codec) (net : SentRequest → NetOutcome)
    (url method : String)
    (headers params : Option (List (String × String)))
    (body : Option Body) (body_type : String) (timeout : Rat)
    (fr vs : Bool) :
    (∃ echo resp s,
      http_request c net url method headers params body body_type timeout
          fr vs
        = .success echo resp s)
    ∨ (∃ msg,
      http_request c net url method headers params body body_type timeout
          fr vs
        = .failure msg
            ⟨pyUpper method, url, headers.getD [], params.getD []⟩) := by
  cases hm : mk_params url method headers params body body_type timeout
      fr vs with
  | error e =>
    exact Or.inr ⟨e.message, http_request_of_validation_error c net url
      method headers params body body_type timeout fr vs e hm⟩
  | ok rp =>
    cases hr : make_http_request c net rp with
    | error e =>
      exact Or.inr ⟨e.message, http_request_of_exec_error c net url method
        headers params body body_type timeout fr vs rp e hm hr⟩
    | ok resp =>
      exact Or.inl ⟨_, _, _, http_request_of_ok c net url method headers
        params body body_type timeout fr vs rp resp hm hr⟩

/-- C7: in every success envelope the success flag holds exactly when
the response status code lies in [200, 300); a 201 response yields
success true, status_code 201 and status_text 201 Created. -/
theorem success_flag_spec :
    (∀ (c : Codec) (net : SentRequest → NetOutcome) url method headers
        params body body_type timeout fr vs echo resp s,
      http_request c net url method headers params body body_type timeout
          fr vs
        = .success echo resp s →
      (s = true ↔ (200 ≤ resp.status_code ∧ resp.status_code < 300)))
    ∧ http_request codec0 net201 "http://x" "GET" none none none "json" 30
        true true
      = .success ⟨"GET", "http://x", [], [], none, 30⟩
          ⟨201, "201 Created", [], none, "", 0⟩ true := by
  constructor
  · intro c net url method headers params body body_type timeout fr vs
      echo resp s heq
    cases hm : mk_params url method headers params body body_type timeout
        fr vs with
    | error e =>
      rw [http_request_of_validation_error c net url method headers params
        body body_type timeout fr vs e hm] at heq
      cases heq
    | ok rp =>
      cases hr : make_http_request c net rp with
      | error e =>
        rw [http_request_of_exec_error c net url method headers params body
          body_type timeout fr vs rp e hm hr] at heq
        cases heq
      | ok resp0 =>
        rw [http_request_of_ok c net url method headers params body
          body_type timeout fr vs rp resp0 hm hr] at heq
        cases heq
        simp
  · exact http_request_201_eval

theorem success_flag_spec_witness :
    (true = true ↔ ((200 : Int) ≤ 201 ∧ (201 : Int) < 300)) :=
  success_flag_spec.1 codec0 net201 "http://x" "GET" none none none "json"
    30 true true ⟨"GET", "http://x", [], [], none, 30⟩
    ⟨201, "201 Created", [], none, "", 0⟩ true http_request_201_eval

/-- C8: the request echo of every success envelope is exactly the
caller-supplied url, headers and params (empty mapping when absent),
the upper-cased method and the raw timeout; and in a concrete run
where the executor adds a Content-Type default to the sent headers,
the echo still shows the caller headers untouched. -/
theorem request_echo_spec :
    (∀ (c : Codec) (net : SentRequest → NetOutcome) url method headers
        params body body_type timeout fr vs echo resp s,
      http_request c net url method headers params body body_type timeout
          fr vs
        = .success echo resp s →
      echo.method = pyUpper method ∧ echo.url = url
        ∧ echo.headers = headers.getD [] ∧ echo.params = params.getD []
        ∧ echo.timeout = timeout)
    ∧ http_request codec0 net200 "http://x" "get" (some [("X", "1")]) none
        (some (.dict [("a", "b")])) "json" 30 true true
      = .success ⟨"GET", "http://x", [("X", "1")], [], some "json", 30⟩
          ⟨200, "200 OK", [], none, "", 0⟩ true
    ∧ sent_request codec0
        ⟨"http://x", "GET", some [("X", "1")], none,
         some (.dict [("a", "b")]), "json", 30, true, true⟩
      = some ⟨"GET", "http://x",
          [("X", "1"), ("Content-Type", "application/json")], none,
          some "JSONDUMP"⟩ := by
  refine ⟨?_, ?_, rfl⟩
  · intro c net url method headers params body body_type timeout fr vs
      echo resp s heq
    cases hm : mk_params url method headers params body body_type timeout
        fr vs with
    | error e =>
      rw [http_request_of_validation_error c net url method headers params
        body body_type timeout fr vs e hm] at heq
      cases heq
    | ok rp =>
      cases hr : make_http_request c net rp with
      | error e =>
        rw [http_request_of_exec_error c net url method headers params body
          body_type timeout fr vs rp e hm hr] at heq
        cases heq
      | ok resp0 =>
        rw [http_request_of_ok c net url method headers params body
          body_type timeout fr vs rp resp0 hm hr] at heq
        cases heq
        exact ⟨mk_params_method hm, rfl, rfl, rfl, rfl⟩
  · have hmk : mk_params "http://x" "get" (some [("X", "1")]) none
        (some (.dict [("a", "b")])) "json" 30 true true
        = .ok ⟨"http://x", "GET", some [("X", "1")], none,
               some (.dict [("a", "b")]), "json", 30, true, true⟩ := by
      rw [mk_params_eval "http://x" "get" (some [("X", "1")]) none
          (some (.dict [("a", "b")])) "json" 30 true true
          rfl rfl rfl validate_timeout_30]
      rfl
    have hex : make_http_request codec0 net200
        ⟨"http://x", "GET", some [("X", "1")], none,
         some (.dict [("a", "b")]), "json", 30, true, true⟩
        = .ok ⟨200, [], "", none, 0⟩ := by
      rw [make_http_request_of_build codec0 net200
          ⟨"http://x", "GET", some [("X", "1")], none,
           some (.dict [("a", "b")]), "json", 30, true, true⟩
          (some "JSONDUMP")
          [("X", "1"), ("Content-Type", "application/json")] rfl]
      norm_num [net200, header_get]
    rw [http_request_of_ok codec0 net200 "http://x" "get"
        (some [("X", "1")]) none (some (.dict [("a", "b")])) "json" 30
        true true
        ⟨"http://x", "GET", some [("X", "1")], none,
         some (.dict [("a", "b")]), "json", 30, true, true⟩
        ⟨200, [], "", none, 0⟩ hmk hex]
    simp only [round2_zero]
    rfl

theorem request_echo_spec_witness :
    (⟨"GET", "http://x", [], [], none, 30⟩ : RequestEcho).method
        = pyUpper "GET"
    ∧ (⟨"GET", "http://x", [], [], none, 30⟩ : RequestEcho).url = "http://x"
    ∧ (⟨"GET", "http://x", [], [], none, 30⟩ : RequestEcho).headers
        = (none : Option (List (String × String))).getD []
    ∧ (⟨"GET", "http://x", [], [], none, 30⟩ : RequestEcho).params
        = (none : Option (List (String × String))).getD []
    ∧ (⟨"GET", "http://x", [], [], none, 30⟩ : RequestEcho).timeout = 30 :=
  request_echo_spec.1 codec0 net201 "http://x" "GET" none none none "json"
    30 true true ⟨"GET", "http://x", [], [], none, 30⟩
    ⟨201, "201 Created", [], none, "", 0⟩ true http_request_201_eval

/-- C10: the success-envelope echo shows body_type only for truthy
bodies: it is none whenever the supplied body is Python-falsy,
including the empty mapping and the empty string, even though a
present body always yields a constructed request body (for the empty
mapping under json, the serialized empty object). -/
theorem body_type_echo_spec :
    (∀ (c : Codec) (net : SentRequest → NetOutcome) url method headers
        params body body_type timeout fr vs echo resp s,
      http_request c net url method headers params body body_type timeout
          fr vs
        = .success echo resp s →
      echo.body_type = if truthy body then some body_type else none)
    ∧ (∀ (c : Codec) (h : List (String × String)) (bt : String) (b : Body)
        (rb : Option String) (hs : List (String × String)),
        build_request_body c h (some b) bt = .ok (rb, hs) →
        rb.isSome = true)
    ∧ truthy (some (.dict [])) = false
    ∧ truthy (some (.str "")) = false
    ∧ truthy none = false
    ∧ (∀ (c : Codec) (h : List (String × String)) (rb : Option String)
        (hs : List (String × String)),
        build_request_body c h (some (.dict [])) "json" = .ok (rb, hs) →
        rb = some (c.dumps [])) := by
  refine ⟨?_, ?_, rfl, rfl, rfl, ?_⟩
  · intro c net url method headers params body body_type timeout fr vs
      echo resp s heq
    cases hm : mk_params url method headers params body body_type timeout
        fr vs with
    | error e =>
      rw [http_request_of_validation_error c net url method headers params
        body body_type timeout fr vs e hm] at heq
      cases heq
    | ok rp =>
      cases hr : make_http_request c net rp with
      | error e =>
        rw [http_request_of_exec_error c net url method headers params body
          body_type timeout fr vs rp e hm hr] at heq
        cases heq
      | ok resp0 =>
        rw [http_request_of_ok c net url method headers params body
          body_type timeout fr vs rp resp0 hm hr] at heq
        cases heq
        rfl
  · intro c h bt b rb hs hok
    rcases b with s | d <;>
      simp only [build_request_body] at hok <;>
      (try split_ifs at hok) <;>
      (try cases hok) <;>
      rfl
  · intro c h rb hs hok
    simp only [build_request_body, if_true] at hok
    cases hok
    rfl

theorem body_type_echo_spec_witness :
    truthy (some (Body.dict [])) = false
    ∧ (⟨"POST", "http://x", [], [], none, 30⟩ : RequestEcho).body_type
        = if truthy (some (Body.dict [])) then some "json" else none :=
  ⟨rfl,
   body_type_echo_spec.1 codec0 net200 "http://x" "POST" none none
     (some (.dict [])) "json" 30 true true
     ⟨"POST", "http://x", [], [], none, 30⟩
     ⟨200, "200 OK", [], none, "", 0⟩ true http_request_emptydict_eval⟩

end HttpClientMcp
